import Mathlib

/-!
Verification of the Telegram audio-downloader bot (`src/bot.py`).

The Python source is embedded shallowly:
* the in-memory user set `USERS` becomes a duplicate-free `List Nat`,
  with `set.add` embedded as a membership-guarded append (`setAdd`);
* the download directory becomes an association list from file path to
  file size in bytes;
* every outbound Telegram call (`reply_text`, `reply_document`,
  `send_photo`, `send_video`, `send_message`) becomes a constructor of
  `Outbound`, collected in a list;
* the external extraction library (`yt_dlp`) is an oracle
  `String → Bool → ExtractResult`: on success it yields the written
  file path, the display title and the size in bytes of the file it
  wrote to disk; on failure, the exception text;
* per-recipient delivery failures during a broadcast (the
  `except Forbidden / except Exception: continue` arms) are an oracle
  `fails : Nat → Bool` saying which recipients raise;
* the handler registrations of `main` become a `step` function on a
  `BotState`, dispatching incoming updates to the embedded handlers.
-/

namespace Bot

/-- `ADMIN_ID = 5997715263` (bot.py line 10). -/
def ADMIN_ID : Nat := 5997715263

/-- `MAX_SIZE_MB = 45` (bot.py line 12). -/
def MAX_SIZE_MB : Nat := 45

/-- One outbound Telegram API call made by a handler.  `reply` is a
`reply_text` to the requester; `document` is `reply_document` (filename
and caption); `photoMsg`/`videoMsg`/`sendText` are the per-recipient
broadcast calls `send_photo`/`send_video`/`send_message`. -/
inductive Outbound where
  | reply (text : String)
  | document (filename : String) (caption : String)
  | photoMsg (chatId : Nat) (fileId : String) (caption : String)
  | videoMsg (chatId : Nat) (fileId : String) (caption : String)
  | sendText (chatId : Nat) (text : String)
deriving DecidableEq, Repr

/-- Whether an outbound call is a document message (`reply_document`). -/
def Outbound.isDocument : Outbound → Bool
  | .document _ _ => true
  | _ => false

/-- The filesystem under the download directory: an association list
from file path to size in bytes. -/
def FS := List (String × Nat)

instance : DecidableEq FS := by unfold FS; infer_instance

/-- First entry at path `p`, if any. -/
def lookupFS : FS → String → Option Nat
  | [], _ => none
  | (q, n) :: rest, p => if q = p then some n else lookupFS rest p

/-- Size in bytes of the file at `p` (the model of `os.path.getsize`);
`0` when the file is absent (the Python call would raise instead, but
every caller in the source reads a file it just created). -/
def getsize (fs : FS) (p : String) : Nat :=
  match lookupFS fs p with
  | some n => n
  | none => 0

/-- Whether a file exists at path `p`. -/
def fileExists (fs : FS) (p : String) : Bool :=
  (lookupFS fs p).isSome

/-- `os.remove p`: drop every entry at path `p`. -/
def removeFile (fs : FS) (p : String) : FS :=
  fs.filter (fun pr => pr.1 ≠ p)

/-- Writing a file: the entry at `p` is replaced by size `n`. -/
def writeFile (fs : FS) (p : String) (n : Nat) : FS :=
  (p, n) :: removeFile fs p

/-- Result of one call into the extraction library
(`download_youtube`, bot.py lines 34-43): either the exception's text,
or the prepared filename, the title and the byte size of the file the
library wrote to disk. -/
inductive ExtractResult where
  | err (msg : String)
  | ok (path : String) (title : String) (size : Nat)
deriving DecidableEq, Repr

/-- The format selector built by `download_youtube` (bot.py line 37). -/
def ydlFormat (audio_only : Bool) : String :=
  if audio_only then "bestaudio/best" else "best[ext=mp4]/mp4"

/-- `os.path.basename`: the component after the last `/`. -/
def basename (p : String) : String :=
  match (p.splitOn "/").getLast? with
  | some s => s
  | none => p

/-- Python `f"{size_mb:.1f}"` where `size_mb = bytes / (1024 * 1024)`.
Division by `2 ^ 20` is exact in binary floating point, so the rendered
digit string is the exact value rounded to one decimal place with ties
to even. -/
def format1f (bytes : Nat) : String :=
  let num := bytes * 10
  let q := num / 1048576
  let r := num % 1048576
  let tenths :=
    if r > 524288 then q + 1
    else if r < 524288 then q
    else if q % 2 = 0 then q else q + 1
  toString (tenths / 10) ++ "." ++ toString (tenths % 10)

/-- The test `size_mb > MAX_SIZE_MB` (bot.py line 68), in bytes:
`bytes / 2 ^ 20` is exact in floating point, so the comparison holds
exactly when `bytes > 45 * 2 ^ 20`. -/
def sizeExceeds (bytes : Nat) : Bool :=
  bytes > MAX_SIZE_MB * 1024 * 1024

/-- Reply sent when the message carries no URL argument (line 51). -/
def invalidLinkText : String := "❗ Please send a valid YouTube link."

/-- The in-progress acknowledgement (lines 55-56). -/
def progressText : String := "⬇️ *Downloading your track... Please wait...*"

/-- The extraction-error reply `f"❌ *Error:* {e}"` (line 63). -/
def errorText (e : String) : String := "❌ *Error:* " ++ e

/-- The size-exceeded warning (lines 69-70). -/
def tooLargeText (bytes : Nat) : String :=
  "⚠️ File too large (" ++ format1f bytes ++ " MB). Can\x27t send via Telegram."

/-- The document caption `f"✅ *{title}*"` (line 76). -/
def captionText (title : String) : String := "✅ *" ++ title ++ "*"

/-- Result of one `handle_download` invocation: the outbound calls in
order, and the filesystem afterwards. -/
structure HDResult where
  outbound : List Outbound
  fs : FS
deriving DecidableEq

/-- `handle_download` (bot.py lines 47-78).  `ctxArgs` is
`context.args` (empty models Python's falsy `None`/`[]`); `extract` is
the extraction-library oracle; `audio_only` is the mode flag.  On
extraction success the library has written the file, the handler
measures it, and either warns (oversized, file kept) or sends it as a
document and removes it. -/
def handle_download (ctxArgs : List String) (extract : String → Bool → ExtractResult)
    (fs : FS) (audio_only : Bool) : HDResult :=
  match ctxArgs with
  | [] => ⟨[.reply invalidLinkText], fs⟩
  | url :: _ =>
    match extract url audio_only with
    | .err e => ⟨[.reply progressText, .reply (errorText e)], fs⟩
    | .ok path title size =>
      let fs1 := writeFile fs path size
      let bytes := getsize fs1 path
      if sizeExceeds bytes then
        ⟨[.reply progressText, .reply (tooLargeText bytes)], fs1⟩
      else
        ⟨[.reply progressText, .document (basename path) (captionText title)],
         removeFile fs1 path⟩

/-- `USERS.add user_id` (bot.py line 24): Python set insertion, i.e. a
no-op when the element is already present. -/
def setAdd (s : List Nat) (x : Nat) : List Nat :=
  if x ∈ s then s else s ++ [x]

/-- The `/start` welcome text (bot.py lines 26-29). -/
def welcomeText : String :=
  "🎧 *Welcome to the Premium YouTube Audio Downloader!*\n\n" ++
  "🎵 Just send a YouTube link or use this:\n" ++
  "➡️ `/audio <youtube_url>`\n\n" ++
  "💫 I\x27ll fetch the audio and send it to you in seconds!"

/-- The `/panel` admin help text (bot.py lines 90-93). -/
def panelText : String :=
  "🛠️ *Admin Control Panel*\n\n" ++
  "📢 `/broadcast <message>` — Send text broadcast\n" ++
  "📸 Send photo/video with caption `/broadcast` — Media broadcast\n" ++
  "📊 `/stats` — View bot stats\n"

/-- `admin_panel` (bot.py lines 87-94): silent unless the sender is the
operator. -/
def admin_panel (senderId : Nat) : List Outbound :=
  if senderId ≠ ADMIN_ID then []
  else [.reply panelText]

/-- The `/stats` report text (bot.py lines 102-104): the f-string
pieces around `len(USERS)` and `ADMIN_ID`. -/
def statsText (users : List Nat) : String :=
  "📈 *Bot Statistics:*\n\n👥 Total Users: " ++ toString users.length ++
    ("\n🧑‍💻 Admin ID: `" ++ toString ADMIN_ID ++ "`")

/-- `stats` (bot.py lines 98-105): silent unless the sender is the
operator; otherwise reports `len(USERS)`. -/
def stats (senderId : Nat) (users : List Nat) : List Outbound :=
  if senderId ≠ ADMIN_ID then []
  else [.reply (statsText users)]

/-- Default caption for a photo broadcast (bot.py line 115). -/
def photoDefaultCaption : String := "📢 New update available! Check it out 🔥"

/-- Default caption for a video broadcast (bot.py line 128). -/
def videoDefaultCaption : String := "🎬 New feature added! Update your bot now ✨"

/-- The promotional wrapper `fake_ads` (bot.py lines 141-143). -/
def fakeAds (text : String) : String :=
  "🎧 *Sponsored Update*\n\n" ++ text ++ "\n\n🔥 Enjoy unlimited music"

/-- The operator acknowledgement (bot.py line 154). -/
def broadcastDoneText : String := "✅ Broadcast sent successfully!"

/-- One `for uid in USERS` delivery loop (bot.py lines 116-124, 129-137,
144-152): each send is wrapped in `try/except Forbidden: continue`
`except Exception: continue`, so a recipient for which the send raises
(`fails uid`) contributes no delivered message and the loop moves on to
the rest.  Returns the delivered messages in iteration order. -/
def sendEach (fails : Nat → Bool) (mk : Nat → Outbound) : List Nat → List Outbound
  | [] => []
  | uid :: rest =>
    if fails uid then sendEach fails mk rest
    else mk uid :: sendEach fails mk rest

/-- `broadcast` (bot.py lines 109-155).  `photo`/`video` carry the
`file_id` when the operator's message has that attachment; `caption` is
`update.message.caption`; `args` is `context.args`.  Branch order
follows the source: photo, else video, else non-empty text args, else
nothing; in every operator case the fixed acknowledgement follows. -/
def broadcast (fails : Nat → Bool) (senderId : Nat)
    (photo : Option String) (video : Option String) (caption : Option String)
    (args : List String) (users : List Nat) : List Outbound :=
  if senderId ≠ ADMIN_ID then []
  else
    let sends :=
      match photo with
      | some fid =>
        sendEach fails (fun uid => .photoMsg uid fid (caption.getD photoDefaultCaption)) users
      | none =>
        match video with
        | some fid =>
          sendEach fails (fun uid => .videoMsg uid fid (caption.getD videoDefaultCaption)) users
        | none =>
          if args.isEmpty then []
          else
            sendEach fails
              (fun uid => .sendText uid (fakeAds (String.intercalate " " args))) users
    sends ++ [.reply broadcastDoneText]

/-- The startup fatal message (bot.py line 161). -/
def noTokenText : String := "❌ Please set BOT_TOKEN environment variable."

/-- Outcome of `main` (bot.py lines 159-178): either startup aborts
after printing a message (no application built, no polling loop), or
the application is built with the token and `run_polling` starts. -/
inductive MainResult where
  | fatal (printed : String)
  | running (token : String)
deriving DecidableEq, Repr

/-- Python truthiness of `TOKEN` in `if not TOKEN` (line 160): `None`
and the empty string are falsy. -/
def tokenFalsy : Option String → Bool
  | none => true
  | some s => s = ""

/-- `main` startup gate (bot.py lines 159-164): `TOKEN` is
`os.getenv("BOT_TOKEN")`. -/
def main (token : Option String) : MainResult :=
  if tokenFalsy token then .fatal noTokenText
  else .running (token.getD "")

/-- Process-wide mutable state: the in-memory `USERS` registry and the
download directory. -/
structure BotState where
  users : List Nat
  fs : FS
deriving DecidableEq

/-- The state at process start: `USERS = set()`, empty download dir. -/
def initialState : BotState := ⟨[], []⟩

/-- The environment the handlers call into: the extraction library and
which broadcast recipients make the send raise. -/
structure Env where
  extract : String → Bool → ExtractResult
  fails : Nat → Bool

/-- An incoming Telegram update, as routed by the handlers registered
in `main` (bot.py lines 167-175): a `/name args` command (`args` is
`context.args`, the words after the command), a bare non-command text
message carrying its raw text, or a photo/video message. -/
inductive Incoming where
  | command (name : String) (uid : Nat) (args : List String)
  | textMsg (uid : Nat) (text : String)
  | mediaMsg (uid : Nat) (photo : Option String) (video : Option String)
      (caption : Option String)

/-- One dispatch of an incoming update through the handler table of
`main` (bot.py lines 167-175): `/start` registers and welcomes;
`/audio` runs `handle_download` with `audio_only=True` (lines 82-83);
a bare text message is routed to the same `audio` callback (line 169),
but the framework populates `context.args` only for `CommandHandler` —
a `MessageHandler` callback sees `context.args = None` — so the
handler runs with no arguments and the message's own text is never
consulted; `/panel`, `/stats`, `/broadcast` and media messages run the
admin handlers; anything else matches no registered handler. -/
def step (env : Env) (st : BotState) : Incoming → BotState × List Outbound
  | .command name uid args =>
    if name = "start" then
      (⟨setAdd st.users uid, st.fs⟩, [.reply welcomeText])
    else if name = "audio" then
      let r := handle_download args env.extract st.fs true
      (⟨st.users, r.fs⟩, r.outbound)
    else if name = "panel" then (st, admin_panel uid)
    else if name = "stats" then (st, stats uid st.users)
    else if name = "broadcast" then
      (st, broadcast env.fails uid none none none args st.users)
    else (st, [])
  | .textMsg _ _ =>
    let r := handle_download [] env.extract st.fs true
    (⟨st.users, r.fs⟩, r.outbound)
  | .mediaMsg uid photo video caption =>
    (st, broadcast env.fails uid photo video caption [] st.users)

/-- Run a sequence of incoming updates from a state. -/
def runEvents (env : Env) (st : BotState) : List Incoming → BotState
  | [] => st
  | e :: es => runEvents env (step env st e).1 es

/-- Whether an update is a `/start` command from user `uid`. -/
def isStartOf (uid : Nat) : Incoming → Prop
  | .command name u _ => name = "start" ∧ u = uid
  | _ => False

instance (uid : Nat) (e : Incoming) : Decidable (isStartOf uid e) := by
  cases e <;> simp [isStartOf] <;> infer_instance

/-- A concrete environment for evaluating the model on closed inputs:
every extraction fails with a fixed message, no delivery raises. -/
def env0 : Env := ⟨fun _ _ => .err "network down", fun _ => false⟩

/-- A concrete extraction oracle producing a small file. -/
def extractSmall : String → Bool → ExtractResult :=
  fun _ _ => .ok "./downloads/dQw4w9WgXcQ.webm" "Test Song" 1048576

/-- A concrete extraction oracle producing an oversized file (60 MB). -/
def extractBig : String → Bool → ExtractResult :=
  fun _ _ => .ok "./downloads/dQw4w9WgXcQ.mp4" "Big Video" 62914560

/-- A concrete environment whose extraction succeeds with a small file
and whose deliveries never raise. -/
def env1 : Env := ⟨extractSmall, fun _ => false⟩

section FSLemmas

theorem lookupFS_removeFile (fs : FS) (p : String) :
    lookupFS (removeFile fs p) p = none := by
  induction fs with
  | nil => rfl
  | cons hd tl ih =>
    obtain ⟨q, n⟩ := hd
    by_cases h : q = p
    · simpa [removeFile, List.filter_cons, h] using ih
    · simpa [removeFile, List.filter_cons, h, lookupFS] using ih

theorem fileExists_removeFile (fs : FS) (p : String) :
    fileExists (removeFile fs p) p = false := by
  simp [fileExists, lookupFS_removeFile]

theorem getsize_writeFile (fs : FS) (p : String) (n : Nat) :
    getsize (writeFile fs p n) p = n := by
  simp [getsize, writeFile, lookupFS]

theorem fileExists_writeFile (fs : FS) (p : String) (n : Nat) :
    fileExists (writeFile fs p n) p = true := by
  simp [fileExists, writeFile, lookupFS]

end FSLemmas

section RegistryLemmas

theorem mem_setAdd_self (s : List Nat) (x : Nat) : x ∈ setAdd s x := by
  by_cases h : x ∈ s <;> simp [setAdd, h]

theorem mem_setAdd_of_mem {s : List Nat} {u : Nat} (x : Nat) (h : u ∈ s) :
    u ∈ setAdd s x := by
  by_cases hx : x ∈ s <;> simp [setAdd, hx, h]

theorem setAdd_nodup {s : List Nat} (x : Nat) (h : s.Nodup) :
    (setAdd s x).Nodup := by
  by_cases hx : x ∈ s
  · simpa [setAdd, hx] using h
  · simp [setAdd, hx, List.nodup_append, h]

theorem step_users_cases (env : Env) (st : BotState) (e : Incoming) :
    (step env st e).1.users = st.users ∨
      ∃ x, (step env st e).1.users = setAdd st.users x := by
  cases e with
  | command name uid args =>
    simp only [step]
    split_ifs <;> first | exact Or.inr ⟨uid, rfl⟩ | exact Or.inl rfl
  | textMsg uid args => exact Or.inl rfl
  | mediaMsg uid photo video caption => exact Or.inl rfl

theorem step_users_mono (env : Env) (st : BotState) (e : Incoming)
    {u : Nat} (h : u ∈ st.users) : u ∈ (step env st e).1.users := by
  rcases step_users_cases env st e with hc | ⟨x, hc⟩
  · rw [hc]; exact h
  · rw [hc]; exact mem_setAdd_of_mem x h

theorem step_users_nodup (env : Env) (st : BotState) (e : Incoming)
    (h : st.users.Nodup) : (step env st e).1.users.Nodup := by
  rcases step_users_cases env st e with hc | ⟨x, hc⟩
  · rw [hc]; exact h
  · rw [hc]; exact setAdd_nodup x h

theorem step_start_mem (env : Env) (st : BotState) {uid : Nat} {e : Incoming}
    (h : isStartOf uid e) : uid ∈ (step env st e).1.users := by
  cases e with
  | command name u args =>
    obtain ⟨hn, hu⟩ := h
    subst hn; subst hu
    simpa [step] using mem_setAdd_self st.users u
  | textMsg uid args => exact absurd h (by simp [isStartOf])
  | mediaMsg uid photo video caption => exact absurd h (by simp [isStartOf])

theorem runEvents_users_mono (env : Env) (es : List Incoming) (st : BotState)
    {u : Nat} (h : u ∈ st.users) : u ∈ (runEvents env st es).users := by
  induction es generalizing st with
  | nil => exact h
  | cons e es ih => exact ih _ (step_users_mono env st e h)

theorem runEvents_users_nodup (env : Env) (es : List Incoming) (st : BotState)
    (h : st.users.Nodup) : (runEvents env st es).users.Nodup := by
  induction es generalizing st with
  | nil => exact h
  | cons e es ih => exact ih _ (step_users_nodup env st e h)

theorem runEvents_count_one (env : Env) (es : List Incoming) (st : BotState)
    (uid : Nat) (hnd : st.users.Nodup) (h : ∃ e ∈ es, isStartOf uid e) :
    (runEvents env st es).users.count uid = 1 := by
  induction es generalizing st with
  | nil => exact absurd h (by simp)
  | cons e es ih =>
    rcases h with ⟨e0, he0, hs⟩
    rcases List.mem_cons.mp he0 with rfl | hmem
    · have hmem1 : uid ∈ (step env st e0).1.users := step_start_mem env st hs
      have hnd1 : (step env st e0).1.users.Nodup := step_users_nodup env st e0 hnd
      exact List.count_eq_one_of_mem (runEvents_users_nodup env es _ hnd1)
        (runEvents_users_mono env es _ hmem1)
    · exact ih _ (step_users_nodup env st e hnd) ⟨e0, hmem, hs⟩

end RegistryLemmas

section BroadcastLemmas

theorem sendEach_eq_filter_map (fails : Nat → Bool) (mk : Nat → Outbound)
    (users : List Nat) :
    sendEach fails mk users = (users.filter (fun u => !fails u)).map mk := by
  induction users with
  | nil => rfl
  | cons u rest ih =>
    by_cases h : fails u = true <;>
      simp [sendEach, List.filter, h, ih]

end BroadcastLemmas

/-- Claim C1 (refuted by the code): line 169 routes a bare text
message to the audio callback, but the framework leaves `context.args`
empty for message handlers, so every bare text message — whatever URL
it carries — runs `handle_download` with no arguments and gets the
input-error reply without the extraction library ever being consulted,
while `/audio` with the same URL downloads and sends the audio. -/
theorem claim_C1 :
    (∀ env st uid text, step env st (.textMsg uid text) =
      (let r := handle_download [] env.extract st.fs true
       (⟨st.users, r.fs⟩, r.outbound))) ∧
    (step env1 initialState (.textMsg 7 "https://youtu.be/dQw4w9WgXcQ")).2 =
      [.reply invalidLinkText] ∧
    (step env1 initialState (.command "audio" 7 ["https://youtu.be/dQw4w9WgXcQ"])).2 =
      [.reply progressText,
       .document (basename "./downloads/dQw4w9WgXcQ.webm") (captionText "Test Song")] := by
  refine ⟨fun env st uid text => rfl, rfl, ?_⟩
  have hb : sizeExceeds 1048576 = false := by decide
  simp [step, env1, handle_download, extractSmall, getsize_writeFile, hb]

/-- Claim C2: for a successfully downloaded file of at most
45 MB (`size ≤ 45 * 2 ^ 20` bytes), the handler sends exactly one
document message, its caption contains the title, and the file no
longer exists afterwards. -/
theorem claim_C2 (extract : String → Bool → ExtractResult) (fs : FS)
    (url : String) (rest : List String) (b : Bool)
    (path title : String) (size : Nat)
    (hx : extract url b = .ok path title size)
    (hsz : size ≤ MAX_SIZE_MB * 1024 * 1024) :
    (handle_download (url :: rest) extract fs b).outbound =
      [.reply progressText, .document (basename path) (captionText title)] ∧
    (handle_download (url :: rest) extract fs b).outbound.countP
      (fun o => o.isDocument) = 1 ∧
    (∃ pre post, captionText title = pre ++ title ++ post) ∧
    fileExists (handle_download (url :: rest) extract fs b).fs path = false := by
  have hb : sizeExceeds size = false := by
    simp only [sizeExceeds, MAX_SIZE_MB, decide_eq_false_iff_not, not_lt]
    exact hsz
  have hres : handle_download (url :: rest) extract fs b =
      ⟨[.reply progressText, .document (basename path) (captionText title)],
       removeFile (writeFile fs path size) path⟩ := by
    simp [handle_download, hx, getsize_writeFile, hb]
  refine ⟨by rw [hres], by rw [hres]; rfl, ⟨"✅ *", "*", rfl⟩, ?_⟩
  rw [hres]
  exact fileExists_removeFile _ _

/-- Witness for C2 on a concrete 1 MB download. -/
theorem claim_C2_witness :
    (handle_download ["u"] extractSmall [] true).outbound =
      [.reply progressText,
       .document (basename "./downloads/dQw4w9WgXcQ.webm") (captionText "Test Song")] ∧
    (handle_download ["u"] extractSmall [] true).outbound.countP
      (fun o => o.isDocument) = 1 ∧
    (∃ pre post, captionText "Test Song" = pre ++ "Test Song" ++ post) ∧
    fileExists (handle_download ["u"] extractSmall [] true).fs
      "./downloads/dQw4w9WgXcQ.webm" = false :=
  claim_C2 extractSmall [] "u" [] true "./downloads/dQw4w9WgXcQ.webm" "Test Song"
    1048576 rfl (by decide)

/-- Claim C3: for a successfully downloaded file larger than 45 MB, no
document is sent, the size-exceeded warning is the reply, and the file
still exists afterwards. -/
theorem claim_C3 (extract : String → Bool → ExtractResult) (fs : FS)
    (url : String) (rest : List String) (b : Bool)
    (path title : String) (size : Nat)
    (hx : extract url b = .ok path title size)
    (hsz : size > MAX_SIZE_MB * 1024 * 1024) :
    (handle_download (url :: rest) extract fs b).outbound =
      [.reply progressText, .reply (tooLargeText size)] ∧
    (∀ o ∈ (handle_download (url :: rest) extract fs b).outbound,
      o.isDocument = false) ∧
    fileExists (handle_download (url :: rest) extract fs b).fs path = true := by
  have hb : sizeExceeds size = true := by
    simp only [sizeExceeds, MAX_SIZE_MB, decide_eq_true_eq]
    exact hsz
  have hres : handle_download (url :: rest) extract fs b =
      ⟨[.reply progressText, .reply (tooLargeText size)],
       writeFile fs path size⟩ := by
    simp [handle_download, hx, getsize_writeFile, hb]
  refine ⟨by rw [hres], ?_, by rw [hres]; exact fileExists_writeFile _ _ _⟩
  rw [hres]
  intro o ho
  simp only [List.mem_cons, List.not_mem_nil, or_false] at ho
  rcases ho with rfl | rfl <;> rfl

/-- Witness for C3 on a concrete 60 MB download. -/
theorem claim_C3_witness :
    (handle_download ["u"] extractBig [] true).outbound =
      [.reply progressText, .reply (tooLargeText 62914560)] ∧
    (∀ o ∈ (handle_download ["u"] extractBig [] true).outbound,
      o.isDocument = false) ∧
    fileExists (handle_download ["u"] extractBig [] true).fs
      "./downloads/dQw4w9WgXcQ.mp4" = true :=
  claim_C3 extractBig [] "u" [] true "./downloads/dQw4w9WgXcQ.mp4" "Big Video"
    62914560 rfl (by decide)

/-- Claim C4: with no URL argument the handler replies with the
input-error message, leaves the filesystem unchanged, and never
consults the extraction oracle (the result is the same for every
oracle). -/
theorem claim_C4 (extract extract2 : String → Bool → ExtractResult)
    (fs : FS) (b : Bool) :
    handle_download [] extract fs b = ⟨[.reply invalidLinkText], fs⟩ ∧
    handle_download [] extract fs b = handle_download [] extract2 fs b :=
  ⟨rfl, rfl⟩

/-- Claim C5: when the extraction call raises, the handler's reply
contains the error's text, no document is sent, and the filesystem is
unchanged. -/
theorem claim_C5 (extract : String → Bool → ExtractResult) (fs : FS)
    (url : String) (rest : List String) (b : Bool) (e : String)
    (hx : extract url b = .err e) :
    handle_download (url :: rest) extract fs b =
      ⟨[.reply progressText, .reply (errorText e)], fs⟩ ∧
    (∃ pre, errorText e = pre ++ e) ∧
    (∀ o ∈ (handle_download (url :: rest) extract fs b).outbound,
      o.isDocument = false) := by
  have hres : handle_download (url :: rest) extract fs b =
      ⟨[.reply progressText, .reply (errorText e)], fs⟩ := by
    simp [handle_download, hx]
  refine ⟨hres, ⟨"❌ *Error:* ", rfl⟩, ?_⟩
  rw [hres]
  intro o ho
  simp only [List.mem_cons, List.not_mem_nil, or_false] at ho
  rcases ho with rfl | rfl <;> rfl

/-- Witness for C5 on a concrete failing extraction. -/
theorem claim_C5_witness :
    handle_download ["u"] (fun _ _ => .err "network down") [] true =
      ⟨[.reply progressText, .reply (errorText "network down")], []⟩ ∧
    (∃ pre, errorText "network down" = pre ++ "network down") ∧
    (∀ o ∈ (handle_download ["u"] (fun _ _ => .err "network down") [] true).outbound,
      o.isDocument = false) :=
  claim_C5 (fun _ _ => .err "network down") [] "u" [] true "network down" rfl

/-- Claim C6: over any sequence of updates from the initial state, a
user who sent `/start` at least once appears in the registry exactly
once, and no dispatch step ever removes an identifier from the
registry. -/
theorem claim_C6 :
    (∀ env es uid, (∃ e ∈ es, isStartOf uid e) →
      (runEvents env initialState es).users.count uid = 1) ∧
    (∀ env st e u, u ∈ st.users → u ∈ (step env st e).1.users) :=
  ⟨fun env es uid h => runEvents_count_one env es initialState uid List.nodup_nil h,
   fun env st e _ h => step_users_mono env st e h⟩

/-- Witness for C6: user 7 sends `/start` twice and is registered
once; a broadcast step does not remove a registered user. -/
theorem claim_C6_witness :
    (runEvents env0 initialState
      [.command "start" 7 [], .command "start" 7 [], .textMsg 7 "u"]).users.count 7
      = 1 ∧
    7 ∈ (step env0 ⟨[7], []⟩ (.command "broadcast" 7 ["hi"])).1.users :=
  ⟨claim_C6.1 env0 _ 7
    ⟨.command "start" 7 [], List.mem_cons_self _ _, ⟨rfl, rfl⟩⟩,
   claim_C6.2 env0 ⟨[7], []⟩ _ 7 (List.mem_cons_self _ _)⟩

/-- Claim C7: an operator text broadcast delivers the template-wrapped
text to every recipient whose send does not raise — failures elsewhere
never abort the loop — the wrapped message contains the operator's
text, and the fixed success acknowledgement is always the final
reply. -/
theorem claim_C7 (fails : Nat → Bool) (args : List String) (users : List Nat)
    (h : args ≠ []) :
    broadcast fails ADMIN_ID none none none args users =
      (users.filter (fun u => !fails u)).map
        (fun u => .sendText u (fakeAds (String.intercalate " " args))) ++
      [.reply broadcastDoneText] ∧
    (∀ u ∈ users, fails u = false →
      Outbound.sendText u (fakeAds (String.intercalate " " args)) ∈
        broadcast fails ADMIN_ID none none none args users) ∧
    (∃ pre post, fakeAds (String.intercalate " " args) =
      pre ++ String.intercalate " " args ++ post) ∧
    (broadcast fails ADMIN_ID none none none args users).getLast? =
      some (.reply broadcastDoneText) := by
  have hne : args.isEmpty = false := by
    cases args with
    | nil => exact absurd rfl h
    | cons a as => rfl
  have hbr : broadcast fails ADMIN_ID none none none args users =
      sendEach fails
        (fun u => .sendText u (fakeAds (String.intercalate " " args))) users ++
      [.reply broadcastDoneText] := by
    simp [broadcast, hne]
  rw [hbr, sendEach_eq_filter_map]
  refine ⟨rfl, ?_, ⟨"🎧 *Sponsored Update*\n\n", "\n\n🔥 Enjoy unlimited music", rfl⟩, ?_⟩
  · intro u hu hf
    refine List.mem_append_left _ (List.mem_map_of_mem _ ?_)
    exact List.mem_filter.mpr ⟨hu, by simp [hf]⟩
  · exact List.getLast?_append_cons _ _ _

/-- Witness for C7: recipient 2's delivery raises, yet 1 and 3 are
delivered and the acknowledgement follows. -/
theorem claim_C7_witness :
    Outbound.sendText 3 (fakeAds (String.intercalate " " ["hello"])) ∈
      broadcast (fun u => u == 2) ADMIN_ID none none none ["hello"] [1, 2, 3] ∧
    (broadcast (fun u => u == 2) ADMIN_ID none none none ["hello"] [1, 2, 3]).getLast?
      = some (.reply broadcastDoneText) :=
  ⟨(claim_C7 (fun u => u == 2) ["hello"] [1, 2, 3] (by simp)).2.1 3
      (by simp) (by decide),
   (claim_C7 (fun u => u == 2) ["hello"] [1, 2, 3] (by simp)).2.2.2⟩

/-- Claim C8: a non-operator broadcast or `/stats` is a silent no-op,
while the operator's `/stats` replies with a report containing the
registry size. -/
theorem claim_C8 (sender : Nat) (fails : Nat → Bool)
    (photo video caption : Option String) (args : List String)
    (users : List Nat) (h : sender ≠ ADMIN_ID) :
    broadcast fails sender photo video caption args users = [] ∧
    stats sender users = [] ∧
    stats ADMIN_ID users = [.reply (statsText users)] ∧
    (∃ pre post, statsText users = pre ++ toString users.length ++ post) := by
  refine ⟨by simp [broadcast, h], by simp [stats, h], by simp [stats], ?_⟩
  exact ⟨"📈 *Bot Statistics:*\n\n👥 Total Users: ",
    "\n🧑‍💻 Admin ID: `" ++ toString ADMIN_ID ++ "`", rfl⟩

/-- Witness for C8 at sender 0 with registry of size 2. -/
theorem claim_C8_witness :
    broadcast (fun _ => false) 0 none none none ["x"] [1, 2] = [] ∧
    stats 0 [1, 2] = [] ∧
    stats ADMIN_ID [1, 2] = [.reply (statsText [1, 2])] :=
  ⟨(claim_C8 0 (fun _ => false) none none none ["x"] [1, 2] (by decide)).1,
   (claim_C8 0 (fun _ => false) none none none ["x"] [1, 2] (by decide)).2.1,
   (claim_C8 0 (fun _ => false) none none none ["x"] [1, 2] (by decide)).2.2.1⟩

/-- Claim C9: with the token environment variable absent, startup is
fatal: `main` prints the message and returns without ever reaching the
running state. -/
theorem claim_C9 :
    main none = MainResult.fatal noTokenText ∧
    ∀ t, main none ≠ MainResult.running t :=
  ⟨rfl, fun t h => by simp [main, tokenFalsy] at h⟩

/-- Claim C10: an operator broadcast with no photo, no video and no
text arguments sends nothing to any recipient, yet the operator still
receives the fixed success acknowledgement. -/
theorem claim_C10 (fails : Nat → Bool) (caption : Option String)
    (users : List Nat) :
    broadcast fails ADMIN_ID none none caption [] users =
      [.reply broadcastDoneText] := by
  simp [broadcast]

end Bot
